import Mathlib

/-!
Shallow embedding of `apps/portal/src/server/router/questions-question-router.ts`.

The router exposes queries (`getQuestionsByFilter`, `getQuestionById`) and
mutations (`create`, `update`, `delete`, `createVote`, `updateVote`,
`deleteVote`) over Prisma-stored rows.  Pure resolver logic is translated into
Lean functions; the database is passed explicitly (a pre-joined row list for
the queries, a `State` of row tables for the mutations).  JavaScript `Date`
values are modelled as `Int` timestamps, nullable columns as `Option`, and the
possibly-undefined caller identity `ctx.session?.user?.id` as `Option String`.
-/

namespace QuestionsRouter

/-- Modelled from the spec: the opaque `QuestionsQuestionType` enum imported
from `@prisma/client` (the Prisma schema is not under `src/`).  Its particular
constructors are irrelevant to every resolver; three representative values are
given so the type is inhabited and decidable. -/
inductive QuestionsQuestionType
  | CODING
  | SYSTEM_DESIGN
  | BEHAVIORAL
deriving DecidableEq, Repr

/-- Modelled from the spec: the `Vote` enum imported from `@prisma/client`
(the Prisma schema is not under `src/`).  The resolvers' `switch` statements
handle `UPVOTE` and `DOWNVOTE` and fall through for any other value, so a
third value `NO_VOTE` represents "any other value" of the enum. -/
inductive Vote
  | UPVOTE
  | DOWNVOTE
  | NO_VOTE
deriving DecidableEq, Repr

/-- TRPC error codes thrown by this router (`new TRPCError({ code: ... })`). -/
inductive TRPCErrorCode
  | NOT_FOUND
  | UNAUTHORIZED
deriving DecidableEq, Repr

/-- Every way a resolver call can fail in this embedding:
* `trpc c` — the resolver itself throws `TRPCError` with code `c`;
* `prismaRecordNotFound` — a Prisma `update`/`delete` whose `where` clause
  matches no row rejects (Prisma error P2025), not translated by the router;
* `prismaUniqueViolation` — a Prisma `create` violating a unique constraint
  rejects (Prisma error P2002), not translated by the router;
* `prismaMissingRequired` — a Prisma `create` given `undefined` for a
  required column rejects, not translated by the router;
* `jsTypeError` — the resolver dereferences a property of `undefined`
  (reading `encounters[0].company` on an empty encounter list). -/
inductive OpError
  | trpc (code : TRPCErrorCode)
  | prismaRecordNotFound
  | prismaUniqueViolation
  | prismaMissingRequired
  | jsTypeError
deriving DecidableEq, Repr

/-! ## Rows as fetched by the queries

`getQuestionsByFilter` and `getQuestionById` fetch questions with
`include: { _count: {answers, comments}, encounters: {company, location,
role, seenAt}, user: {name}, votes: true }`.  `QuestionData` is one such
joined row. -/

/-- One encounter as selected by the queries' `include.encounters.select`.
`location` and `role` are nullable in the store (the shaping step applies
`?? 'Unknown location'` / `?? 'Unknown role'`); `company` and `seenAt` are
not. -/
structure Encounter where
  company : String
  location : Option String
  role : Option String
  seenAt : Int
deriving DecidableEq, Repr

/-- The included `user` relation (`select: { name: true }`); the user's
`name` column is itself nullable. -/
structure UserRec where
  name : Option String
deriving DecidableEq, Repr

/-- One `questionsQuestionVote` row (`votes: true` includes whole rows).
`userId` is a required column of the vote table. -/
structure VoteRow where
  id : String
  questionId : String
  userId : String
  vote : Vote
deriving DecidableEq, Repr

/-- One joined row returned by the queries' `findMany`/`findUnique`:
the question's own columns plus the included counts and relations.
The `user` relation is nullable. -/
structure QuestionData where
  id : String
  content : String
  questionType : QuestionsQuestionType
  createdAt : Int
  updatedAt : Int
  numAnswers : Nat
  numComments : Nat
  encounters : List Encounter
  user : Option UserRec
  votes : List VoteRow
deriving DecidableEq, Repr

/-- The zod-validated input of `getQuestionsByFilter`: `startDate` is
optional, every other field required. -/
structure FilterInput where
  companies : List String
  endDate : Int
  locations : List String
  questionTypes : List QuestionsQuestionType
  roles : List String
  startDate : Option Int
deriving DecidableEq, Repr

/-- The shaped `Question` record both queries return (type `Question` from
`~/types/questions`). -/
structure Question where
  company : String
  content : String
  id : String
  location : String
  numAnswers : Nat
  numComments : Nat
  numVotes : Int
  role : String
  seenAt : Int
  type : QuestionsQuestionType
  updatedAt : Int
  user : String
deriving DecidableEq, Repr

/-- Decidable membership test used for `Array.prototype.includes` on the
string filter lists. -/
def includesStr (l : List String) (s : String) : Bool :=
  l.contains s

/-- The per-encounter body of the filter loop in `getQuestionsByFilter`
(lines 58–73): `matchCompany && matchLocation && matchRole && matchDate`.
A `null` `location`/`role` never passes `includes` against a string list,
and `!input.startDate` is true exactly when `startDate` is absent. -/
def encounterMatches (input : FilterInput) (encounter : Encounter) : Bool :=
  let matchCompany :=
    input.companies.length == 0 || includesStr input.companies encounter.company
  let matchLocation :=
    input.locations.length == 0 ||
      (match encounter.location with
       | some l => includesStr input.locations l
       | none => false)
  let matchRole :=
    input.roles.length == 0 ||
      (match encounter.role with
       | some r => includesStr input.roles r
       | none => false)
  let matchDate :=
    (match input.startDate with
     | none => true
     | some startDate => decide (startDate ≤ encounter.seenAt)) &&
      decide (encounter.seenAt ≤ input.endDate)
  matchCompany && matchLocation && matchRole && matchDate

/-- The `filter` callback of `getQuestionsByFilter` (lines 57–76): iterate the
question's encounters and return `true` on the first match, `false` if none
matches. -/
def questionFilter (input : FilterInput) (data : QuestionData) : Bool :=
  data.encounters.any fun encounter => encounterMatches input encounter

/-- The vote `reduce` shared verbatim by both query resolvers
(lines 78–93 and 151–166): starting from `0`, `+1` per `UPVOTE`,
`-1` per `DOWNVOTE`, unchanged otherwise. -/
def tallyVotes (votes : List VoteRow) : Int :=
  votes.foldl
    (fun previousValue currentValue =>
      match currentValue.vote with
      | Vote.UPVOTE => previousValue + 1
      | Vote.DOWNVOTE => previousValue - 1
      | _ => previousValue)
    0

/-- The shaping step shared verbatim by both query resolvers (lines 95–109 and
168–181).  JavaScript reads `data.encounters[0].company` without a guard: on an
empty encounter list `encounters[0]` is `undefined` and the property access
throws a `TypeError`, modelled as `none`. -/
def shapeQuestion (data : QuestionData) : Option Question :=
  match data.encounters with
  | [] => none
  | e0 :: _ =>
    some
      { company := e0.company
        content := data.content
        id := data.id
        location := e0.location.getD "Unknown location"
        numAnswers := data.numAnswers
        numComments := data.numComments
        numVotes := tallyVotes data.votes
        role := e0.role.getD "Unknown role"
        seenAt := e0.seenAt
        type := data.questionType
        updatedAt := data.updatedAt
        user := (data.user.bind fun u => u.name).getD "" }

/-- The `findMany` of `getQuestionsByFilter` (lines 20–55): a `where` clause
filtering on `questionType ∈ input.questionTypes` only when that list is
non-empty, and `orderBy: { createdAt: 'desc' }`. -/
def fetchQuestions (store : List QuestionData) (input : FilterInput) : List QuestionData :=
  let whereFiltered :=
    if input.questionTypes.length > 0 then
      store.filter fun q => input.questionTypes.contains q.questionType
    else
      store
  whereFiltered.insertionSort fun a b => b.createdAt ≤ a.createdAt

/-- The questions surviving the in-memory `filter` stage of
`getQuestionsByFilter` (lines 56–76). -/
def retainedQuestions (store : List QuestionData) (input : FilterInput) : List QuestionData :=
  (fetchQuestions store input).filter (questionFilter input)

/-- The full `getQuestionsByFilter` resolver: fetch, filter, then shape each
retained question (lines 19–111).  The result is `none` when some shaping
step would throw (it never does: every retained question has a matching, hence
existing, first encounter). -/
def getQuestionsByFilter (store : List QuestionData) (input : FilterInput) :
    Option (List Question) :=
  (retainedQuestions store input).mapM shapeQuestion

/-- The `getQuestionById` resolver (lines 117–183): `findUnique` by id, throw
`NOT_FOUND` when no row resolves, otherwise tally votes and shape; shaping a
question with no encounters throws a `TypeError`, not a `TRPCError`. -/
def getQuestionById (store : List QuestionData) (id : String) :
    Except OpError Question :=
  match store.find? (fun q => q.id == id) with
  | none => .error (.trpc .NOT_FOUND)
  | some questionData =>
    match shapeQuestion questionData with
    | none => .error .jsTypeError
    | some question => .ok question

/-! ## Rows as stored for the mutations

The mutations read and write individual tables; `State` carries them
explicitly.  Row ids generated by the store (cuids) are passed in as
arguments. -/

/-- One `questionsQuestion` row as the mutations see it.  `userId` is the
owning user; `create` copies it from `ctx.session?.user?.id`, which can be
`undefined`. -/
structure QuestionRow where
  id : String
  content : String
  questionType : QuestionsQuestionType
  userId : Option String
deriving DecidableEq, Repr

/-- One `questionsQuestionEncounter` row as written by `create`. -/
structure EncounterRow where
  id : String
  company : String
  location : Option String
  role : Option String
  seenAt : Int
  userId : Option String
  questionId : String
deriving DecidableEq, Repr

/-- The mutable store the mutations operate on. -/
structure State where
  questions : List QuestionRow
  encounters : List EncounterRow
  votes : List VoteRow
deriving DecidableEq, Repr

/-- The zod-validated input of `create` (lines 186–193). -/
structure CreateInput where
  company : String
  content : String
  location : String
  questionType : QuestionsQuestionType
  role : String
  seenAt : Int
deriving DecidableEq, Repr

/-- The zod-validated input of `update` (lines 232–236): `content` and
`questionType` optional, `id` required. -/
structure UpdateInput where
  content : Option String
  id : String
  questionType : Option QuestionsQuestionType
deriving DecidableEq, Repr

/-- The first write of `create` (lines 197–214):
`prisma.questionsQuestion.create` with a nested `encounters: { create: [...] }`,
which inserts the question row and one encounter row in the same call.
`qid`/`eid` are the store-generated ids. -/
def questionCreateWrite (s : State) (userId : Option String) (input : CreateInput)
    (qid eid : String) : State × QuestionRow :=
  let question : QuestionRow :=
    { id := qid
      content := input.content
      questionType := input.questionType
      userId := userId }
  let nestedEncounter : EncounterRow :=
    { id := eid
      company := input.company
      location := some input.location
      role := some input.role
      seenAt := input.seenAt
      userId := userId
      questionId := qid }
  ({ s with
      questions := s.questions ++ [question]
      encounters := s.encounters ++ [nestedEncounter] },
    question)

/-- The second write of `create` (lines 217–226):
`prisma.questionsQuestionEncounter.create` with the same
company/location/role/seenAt and `questionId := question.id`. -/
def encounterCreateWrite (s : State) (userId : Option String) (input : CreateInput)
    (questionId eid : String) : State :=
  { s with
      encounters :=
        s.encounters ++
          [{ id := eid
             company := input.company
             location := some input.location
             role := some input.role
             seenAt := input.seenAt
             userId := userId
             questionId := questionId }] }

/-- The `create` resolver (lines 194–229): the question write (with its nested
encounter) followed by the separate encounter write; returns the created
question row. -/
def create (s : State) (userId : Option String) (input : CreateInput)
    (qid eid1 eid2 : String) : State × QuestionRow :=
  let step1 := questionCreateWrite s userId input qid eid1
  (encounterCreateWrite step1.1 userId input step1.2.id eid2, step1.2)

/-- The `update` resolver (lines 237–262): `findUnique` by id, then the
ownership check `questionToUpdate?.id !== userId` — JavaScript strict
inequality between the found row's `id` (or `undefined` when no row was
found) and the possibly-`undefined` caller id.  On mismatch it throws
`UNAUTHORIZED`; otherwise `prisma.questionsQuestion.update` spreads the input
over the row (Prisma ignores `undefined` fields, and `id := input.id` is the
matched id), rejecting with P2025 when the row does not exist. -/
def update (s : State) (userId : Option String) (input : UpdateInput) :
    Except OpError (State × QuestionRow) :=
  let questionToUpdate := s.questions.find? fun q => q.id == input.id
  if (questionToUpdate.map fun q => q.id) ≠ userId then
    .error (.trpc .UNAUTHORIZED)
  else
    match questionToUpdate with
    | none => .error .prismaRecordNotFound
    | some q =>
      let q' : QuestionRow :=
        { q with
            content := input.content.getD q.content
            questionType := input.questionType.getD q.questionType }
      .ok
        ({ s with
            questions := s.questions.map fun r => if r.id == input.id then q' else r },
          q')

/-- The `delete` resolver (lines 268–290): same `findUnique` and defective
ownership check `questionToDelete?.id !== userId`, then
`prisma.questionsQuestion.delete` by id, rejecting with P2025 when the row
does not exist. -/
def deleteQuestion (s : State) (userId : Option String) (id : String) :
    Except OpError (State × QuestionRow) :=
  let questionToDelete := s.questions.find? fun q => q.id == id
  if (questionToDelete.map fun q => q.id) ≠ userId then
    .error (.trpc .UNAUTHORIZED)
  else
    match questionToDelete with
    | none => .error .prismaRecordNotFound
    | some q =>
      .ok ({ s with questions := s.questions.filter fun r => !(r.id == id) }, q)

/-- Modelled from the spec: the persistence layer's behaviour on
`prisma.questionsQuestionVote.create` — the Prisma schema is not under
`src/`.  Per the spec §3 ("Invariant: at most one Vote per (questionId,
userId) pair") and §4.3 (the vote is "keyed by (questionId, callerUserId)
composite uniqueness", and createVote "relies on the composite-uniqueness
constraint at the persistence layer to reject duplicates"), `userId` is a
required column and `(questionId, userId)` is unique: inserting `undefined`
for `userId` rejects, and inserting a duplicate pair rejects. -/
def prismaVoteCreate (votes : List VoteRow) (questionId : String)
    (userId : Option String) (vote : Vote) (newId : String) :
    Except OpError (List VoteRow × VoteRow) :=
  match userId with
  | none => .error .prismaMissingRequired
  | some uid =>
    if votes.any fun w => w.questionId == questionId && w.userId == uid then
      .error .prismaUniqueViolation
    else
      let v : VoteRow := { id := newId, questionId := questionId, userId := uid, vote := vote }
      .ok (votes ++ [v], v)

/-- The `createVote` resolver (lines 312–321): inserts
`{...input, userId}` with no duplicate check of its own; uniqueness is left
to the store (`prismaVoteCreate`). -/
def createVote (s : State) (userId : Option String) (questionId : String)
    (vote : Vote) (newId : String) : Except OpError (State × VoteRow) :=
  match prismaVoteCreate s.votes questionId userId vote newId with
  | .error e => .error e
  | .ok (votes, v) => .ok ({ s with votes := votes }, v)

/-- The `updateVote` resolver (lines 328–353): `findUnique` by id, ownership
check `voteToUpdate?.userId !== userId` (the found row's `userId`, or
`undefined` when no row was found, against the possibly-`undefined` caller),
then `prisma.questionsQuestionVote.update` of the `vote` field only. -/
def updateVote (s : State) (userId : Option String) (id : String) (vote : Vote) :
    Except OpError (State × VoteRow) :=
  let voteToUpdate := s.votes.find? fun w => w.id == id
  if (voteToUpdate.map fun w => w.userId) ≠ userId then
    .error (.trpc .UNAUTHORIZED)
  else
    match voteToUpdate with
    | none => .error .prismaRecordNotFound
    | some v =>
      let v' : VoteRow := { v with vote := vote }
      .ok
        ({ s with votes := s.votes.map fun w => if w.id == id then v' else w },
          v')

/-- The `deleteVote` resolver (lines 359–380): same lookup and ownership
check, then `prisma.questionsQuestionVote.delete` by id. -/
def deleteVote (s : State) (userId : Option String) (id : String) :
    Except OpError (State × VoteRow) :=
  let voteToDelete := s.votes.find? fun w => w.id == id
  if (voteToDelete.map fun w => w.userId) ≠ userId then
    .error (.trpc .UNAUTHORIZED)
  else
    match voteToDelete with
    | none => .error .prismaRecordNotFound
    | some v =>
      .ok ({ s with votes := s.votes.filter fun w => !(w.id == id) }, v)

/-! ## Concrete sample values (used by the closed witness theorems) -/

/-- A joined row with one fully-populated encounter, a named user, and votes
tallying `+1` (two upvotes, one downvote). -/
def sampleVotedData : QuestionData :=
  { id := "q1"
    content := "Reverse a linked list"
    questionType := .CODING
    createdAt := 10
    updatedAt := 11
    numAnswers := 2
    numComments := 3
    encounters := [{ company := "Acme", location := some "Singapore", role := some "Engineer", seenAt := 5 }]
    user := some { name := some "alice" }
    votes :=
      [{ id := "v1", questionId := "q1", userId := "u1", vote := .UPVOTE },
       { id := "v2", questionId := "q1", userId := "u2", vote := .UPVOTE },
       { id := "v3", questionId := "q1", userId := "u3", vote := .DOWNVOTE }] }

/-- The shaped record produced from `sampleVotedData`. -/
def sampleVotedShaped : Question :=
  { company := "Acme"
    content := "Reverse a linked list"
    id := "q1"
    location := "Singapore"
    numAnswers := 2
    numComments := 3
    numVotes := 1
    role := "Engineer"
    seenAt := 5
    type := .CODING
    updatedAt := 11
    user := "alice" }

/-- A joined row whose first encounter has no location and no role, and whose
user relation is absent. -/
def sampleBareData : QuestionData :=
  { id := "q2"
    content := "Design a cache"
    questionType := .SYSTEM_DESIGN
    createdAt := 20
    updatedAt := 21
    numAnswers := 0
    numComments := 0
    encounters := [{ company := "Globex", location := none, role := none, seenAt := 7 }]
    user := none
    votes := [] }

/-- A stored question row with an empty encounter list. -/
def sampleNoEncounterData : QuestionData :=
  { id := "q3"
    content := "Orphaned question"
    questionType := .BEHAVIORAL
    createdAt := 30
    updatedAt := 31
    numAnswers := 0
    numComments := 0
    encounters := []
    user := none
    votes := [] }

/-- The empty mutation store. -/
def emptyState : State :=
  { questions := [], encounters := [], votes := [] }

/-- A store holding one question owned by `"alice"` whose row id is `"alice"`
as well, so the defective check can succeed. -/
def sampleQuestionState : State :=
  { questions := [{ id := "alice", content := "old", questionType := .CODING, userId := some "bob" }]
    encounters := []
    votes := [] }

/-- A store holding one vote owned by `"carol"`. -/
def sampleVoteState : State :=
  { questions := []
    encounters := []
    votes := [{ id := "w1", questionId := "q1", userId := "carol", vote := .DOWNVOTE }] }

/-- A sample `create` input. -/
def sampleCreateInput : CreateInput :=
  { company := "Acme"
    content := "Reverse a linked list"
    location := "Singapore"
    questionType := .CODING
    role := "Engineer"
    seenAt := 3 }

/-- A sample `update` input setting only the content. -/
def sampleUpdateInput : UpdateInput :=
  { content := some "new content"
    id := "alice"
    questionType := none }

/-- An `update` input aimed at an id that resolves to no row. -/
def missingUpdateInput : UpdateInput :=
  { content := none
    id := "ghost"
    questionType := none }

/-! ## Helper lemmas -/

/-- Shaping succeeds exactly on rows with at least one encounter. -/
theorem shapeQuestion_isSome (data : QuestionData) :
    (shapeQuestion data).isSome = true ↔ data.encounters ≠ [] := by
  cases h : data.encounters <;> simp [shapeQuestion, h]

/-- `Array.prototype.includes` on a string list is list membership. -/
theorem includesStr_iff (l : List String) (s : String) :
    includesStr l s = true ↔ s ∈ l := by
  simp [includesStr, List.contains_eq_any_beq]

/-- The per-encounter boolean of the filter loop holds exactly when the
encounter satisfies the four-field conjunction the spec describes. -/
theorem encounterMatches_iff (input : FilterInput) (e : Encounter) :
    encounterMatches input e = true ↔
      (input.companies = [] ∨ e.company ∈ input.companies) ∧
      (input.locations = [] ∨ ∃ l, e.location = some l ∧ l ∈ input.locations) ∧
      (input.roles = [] ∨ ∃ r, e.role = some r ∧ r ∈ input.roles) ∧
      ((∀ d, input.startDate = some d → d ≤ e.seenAt) ∧ e.seenAt ≤ input.endDate) := by
  unfold encounterMatches
  cases hl : e.location <;> cases hr : e.role <;> cases hs : input.startDate <;>
    simp [includesStr_iff, List.length_eq_zero, and_assoc]

/-- A question passes the filter callback exactly when one of its encounters
matches. -/
theorem questionFilter_iff (input : FilterInput) (data : QuestionData) :
    questionFilter input data = true ↔
      ∃ e ∈ data.encounters, encounterMatches input e = true := by
  simp [questionFilter]

/-- `tallyVotes` from an arbitrary accumulator adds the signed count. -/
theorem tallyVotes_foldl (votes : List VoteRow) (acc : Int) :
    votes.foldl
        (fun previousValue currentValue =>
          match currentValue.vote with
          | Vote.UPVOTE => previousValue + 1
          | Vote.DOWNVOTE => previousValue - 1
          | _ => previousValue)
        acc =
      acc + ((votes.countP fun v => v.vote == Vote.UPVOTE : Nat) : Int)
        - ((votes.countP fun v => v.vote == Vote.DOWNVOTE : Nat) : Int) := by
  induction votes generalizing acc with
  | nil => simp
  | cons v rest ih =>
    cases hv : v.vote <;>
      simp [List.foldl_cons, List.countP_cons, hv, ih] <;> ring

/-- The reduce of the query resolvers equals upvotes minus downvotes. -/
theorem tallyVotes_eq (votes : List VoteRow) :
    tallyVotes votes =
      ((votes.countP fun v => v.vote == Vote.UPVOTE : Nat) : Int) -
        ((votes.countP fun v => v.vote == Vote.DOWNVOTE : Nat) : Int) := by
  simpa using tallyVotes_foldl votes 0

/-- Mapping an `Option`-valued function over a list succeeds when it succeeds
pointwise. -/
theorem mapM_isSome_of_forall {α β : Type} (f : α → Option β) :
    ∀ l : List α, (∀ a ∈ l, (f a).isSome) → ∃ res, l.mapM f = some res := by
  intro l
  induction l with
  | nil => intro _; exact ⟨[], rfl⟩
  | cons a rest ih =>
    intro h
    obtain ⟨b, hb⟩ := Option.isSome_iff_exists.mp (h a (by simp))
    obtain ⟨res, hres⟩ := ih fun x hx => h x (by simp [hx])
    refine ⟨b :: res, ?_⟩
    rw [List.mapM_cons, hb, hres]
    rfl

/-! ## Claim theorems -/

/-- C1: a fetched question is retained by `getQuestionsByFilter` iff at least
one of its encounters simultaneously satisfies the companies, locations,
roles, and `[startDate, endDate]` conditions — an OR over encounters of an
AND over the four fields, where an empty filter list matches every encounter
and an omitted `startDate` imposes no lower bound; the final result shapes
exactly the retained questions. -/
theorem getQuestionsByFilter_retention (store : List QuestionData)
    (input : FilterInput) (data : QuestionData) :
    (data ∈ retainedQuestions store input ↔
      data ∈ fetchQuestions store input ∧
        ∃ e ∈ data.encounters,
          (input.companies = [] ∨ e.company ∈ input.companies) ∧
          (input.locations = [] ∨ ∃ l, e.location = some l ∧ l ∈ input.locations) ∧
          (input.roles = [] ∨ ∃ r, e.role = some r ∧ r ∈ input.roles) ∧
          ((∀ d, input.startDate = some d → d ≤ e.seenAt) ∧ e.seenAt ≤ input.endDate)) ∧
    getQuestionsByFilter store input = (retainedQuestions store input).mapM shapeQuestion := by
  refine ⟨?_, rfl⟩
  rw [retainedQuestions, List.mem_filter, questionFilter_iff]
  constructor
  · rintro ⟨hmem, e, he, hmatch⟩
    exact ⟨hmem, e, he, (encounterMatches_iff input e).mp hmatch⟩
  · rintro ⟨hmem, e, he, hspec⟩
    exact ⟨hmem, e, he, (encounterMatches_iff input e).mpr hspec⟩

/-- C3: the `numVotes` of a shaped question — the reduce both
`getQuestionsByFilter` and `getQuestionById` apply to the question's vote
set — equals the number of `UPVOTE` records minus the number of `DOWNVOTE`
records. -/
theorem shaped_numVotes_eq (data : QuestionData) (q : Question)
    (h : shapeQuestion data = some q) :
    q.numVotes =
      ((data.votes.countP fun v => v.vote == Vote.UPVOTE : Nat) : Int) -
        ((data.votes.countP fun v => v.vote == Vote.DOWNVOTE : Nat) : Int) := by
  cases hd : data.encounters with
  | nil => rw [shapeQuestion, hd] at h; cases h
  | cons e0 rest =>
    rw [shapeQuestion, hd] at h
    injection h with h
    subst h
    simpa using tallyVotes_eq data.votes

/-- Witness for C3 on a concrete row with two upvotes and one downvote. -/
theorem shaped_numVotes_eq_witness :
    sampleVotedShaped.numVotes =
      ((sampleVotedData.votes.countP fun v => v.vote == Vote.UPVOTE : Nat) : Int) -
        ((sampleVotedData.votes.countP fun v => v.vote == Vote.DOWNVOTE : Nat) : Int) :=
  shaped_numVotes_eq sampleVotedData sampleVotedShaped (by rfl)

/-- C6: when no stored question carries the requested id, `getQuestionById`
throws `NOT_FOUND`; in particular it never silently returns a result. -/
theorem getQuestionById_not_found (store : List QuestionData) (id : String)
    (h : ∀ q ∈ store, q.id ≠ id) :
    getQuestionById store id = .error (.trpc .NOT_FOUND) ∧
      ∀ q, getQuestionById store id ≠ .ok q := by
  have hfind : store.find? (fun q => q.id == id) = none := by
    rw [List.find?_eq_none]
    intro q hq
    simpa using h q hq
  refine ⟨?_, ?_⟩
  · simp [getQuestionById, hfind]
  · intro q
    simp [getQuestionById, hfind]

/-- Witness for C6 on a store whose only question has a different id. -/
theorem getQuestionById_not_found_witness :
    getQuestionById [sampleVotedData] "missing" = .error (.trpc .NOT_FOUND) ∧
      ∀ q, getQuestionById [sampleVotedData] "missing" ≠ .ok q :=
  getQuestionById_not_found [sampleVotedData] "missing" (by
    intro q hq
    simp [sampleVotedData] at hq
    simp [hq, sampleVotedData])

/-- C7: a shaped record takes company/location/role/seenAt from the first
encounter, substituting the literals `"Unknown location"` / `"Unknown role"`
when the first encounter's fields are absent, and the empty string when the
user relation is absent; both query resolvers shape through this function. -/
theorem shaped_fields_from_first_encounter (data : QuestionData)
    (e0 : Encounter) (rest : List Encounter) (h : data.encounters = e0 :: rest) :
    ∃ q, shapeQuestion data = some q ∧
      q.company = e0.company ∧
      q.seenAt = e0.seenAt ∧
      q.location = e0.location.getD "Unknown location" ∧
      q.role = e0.role.getD "Unknown role" ∧
      (e0.location = none → q.location = "Unknown location") ∧
      (e0.role = none → q.role = "Unknown role") ∧
      (data.user = none → q.user = "") := by
  refine ⟨_, by rw [shapeQuestion, h], rfl, rfl, rfl, rfl, ?_, ?_, ?_⟩
  · intro hl; simp [hl]
  · intro hr; simp [hr]
  · intro hu; simp [hu]

/-- Witness for C7 on a row whose first encounter lacks location and role and
whose user relation is absent. -/
theorem shaped_fields_from_first_encounter_witness :
    ∃ q, shapeQuestion sampleBareData = some q ∧
      q.company = ({ company := "Globex", location := none, role := none, seenAt := 7 } : Encounter).company ∧
      q.seenAt = ({ company := "Globex", location := none, role := none, seenAt := 7 } : Encounter).seenAt ∧
      q.location = (none : Option String).getD "Unknown location" ∧
      q.role = (none : Option String).getD "Unknown role" ∧
      ((none : Option String) = none → q.location = "Unknown location") ∧
      ((none : Option String) = none → q.role = "Unknown role") ∧
      (sampleBareData.user = none → q.user = "") :=
  shaped_fields_from_first_encounter sampleBareData
    { company := "Globex", location := none, role := none, seenAt := 7 } [] (by rfl)

/-- C10: every question retained by `getQuestionsByFilter` has a non-empty
encounter list, so the whole result shapes without fault; `getQuestionById`
has no such guard — it shapes successfully exactly when the resolved question
has an encounter, and dereferences `undefined` (a `TypeError`, not a TRPC
error) on a stored question with zero encounters. -/
theorem first_encounter_access_guard :
    (∀ store input data, data ∈ retainedQuestions store input → data.encounters ≠ []) ∧
    (∀ store input, ∃ res, getQuestionsByFilter store input = some res) ∧
    (∀ store id data, store.find? (fun q => q.id == id) = some data →
      (data.encounters ≠ [] → ∃ q, getQuestionById store id = .ok q) ∧
      (data.encounters = [] → getQuestionById store id = .error .jsTypeError)) := by
  have hne : ∀ input data, questionFilter input data = true → data.encounters ≠ [] := by
    intro input data hf
    obtain ⟨e, he, -⟩ := (questionFilter_iff input data).mp hf
    intro hnil
    rw [hnil] at he
    cases he
  refine ⟨?_, ?_, ?_⟩
  · intro store input data hmem
    exact hne input data (List.mem_filter.mp hmem).2
  · intro store input
    refine mapM_isSome_of_forall shapeQuestion _ ?_
    intro data hmem
    exact (shapeQuestion_isSome data).mpr
      (hne input data (List.mem_filter.mp hmem).2)
  · intro store id data hfind
    refine ⟨?_, ?_⟩
    · intro henc
      obtain ⟨q, hq⟩ := Option.isSome_iff_exists.mp ((shapeQuestion_isSome data).mpr henc)
      exact ⟨q, by simp [getQuestionById, hfind, hq]⟩
    · intro henc
      have : shapeQuestion data = none := by simp [shapeQuestion, henc]
      simp [getQuestionById, hfind, this]

/-- Witness for C10: fetching a stored question with zero encounters by id
faults with a `TypeError` rather than returning or throwing a TRPC error. -/
theorem first_encounter_access_guard_witness :
    getQuestionById [sampleNoEncounterData] "q3" = .error .jsTypeError :=
  (first_encounter_access_guard.2.2 [sampleNoEncounterData] "q3"
    sampleNoEncounterData (by rfl)).2 (by rfl)

/-- C2: `update` and `delete` authorize by comparing the fetched question's
own `id` — not its `userId` column — to the caller's user id, throw
`UNAUTHORIZED` exactly when the two differ, and otherwise partially update
`content`/`questionType` (update) or remove the question row (delete). -/
theorem update_delete_ownership (s : State) (uid : Option String)
    (input : UpdateInput) (q : QuestionRow)
    (h : s.questions.find? (fun r => r.id == input.id) = some q) :
    ((update s uid input = .error (.trpc .UNAUTHORIZED)) ↔ uid ≠ some q.id) ∧
    (uid = some q.id →
      update s uid input =
        .ok
          ({ s with
              questions := s.questions.map fun r =>
                if r.id == input.id then
                  { q with
                      content := input.content.getD q.content
                      questionType := input.questionType.getD q.questionType }
                else r },
            { q with
                content := input.content.getD q.content
                questionType := input.questionType.getD q.questionType })) ∧
    ((deleteQuestion s uid input.id = .error (.trpc .UNAUTHORIZED)) ↔ uid ≠ some q.id) ∧
    (uid = some q.id →
      deleteQuestion s uid input.id =
        .ok ({ s with questions := s.questions.filter fun r => !(r.id == input.id) }, q)) := by
  rcases eq_or_ne uid (some q.id) with huid | huid
  · simp [update, deleteQuestion, h, huid]
  · simp [update, deleteQuestion, h, huid, Ne.symm huid]

/-- Witness for C2 on a one-question store whose row id equals the caller id,
so the defective comparison authorizes the caller. -/
theorem update_delete_ownership_witness :
    ((update sampleQuestionState (some "alice") sampleUpdateInput =
        .error (.trpc .UNAUTHORIZED)) ↔ (some "alice" : Option String) ≠ some "alice") ∧
    ((some "alice" : Option String) = some "alice" →
      update sampleQuestionState (some "alice") sampleUpdateInput =
        .ok
          ({ sampleQuestionState with
              questions := sampleQuestionState.questions.map fun r =>
                if r.id == sampleUpdateInput.id then
                  { ({ id := "alice", content := "old", questionType := .CODING,
                       userId := some "bob" } : QuestionRow) with
                      content := sampleUpdateInput.content.getD "old"
                      questionType := sampleUpdateInput.questionType.getD .CODING }
                else r },
            { ({ id := "alice", content := "old", questionType := .CODING,
                 userId := some "bob" } : QuestionRow) with
                content := sampleUpdateInput.content.getD "old"
                questionType := sampleUpdateInput.questionType.getD .CODING })) ∧
    ((deleteQuestion sampleQuestionState (some "alice") sampleUpdateInput.id =
        .error (.trpc .UNAUTHORIZED)) ↔ (some "alice" : Option String) ≠ some "alice") ∧
    ((some "alice" : Option String) = some "alice" →
      deleteQuestion sampleQuestionState (some "alice") sampleUpdateInput.id =
        .ok
          ({ sampleQuestionState with
              questions := sampleQuestionState.questions.filter fun r =>
                !(r.id == sampleUpdateInput.id) },
            { id := "alice", content := "old", questionType := .CODING,
              userId := some "bob" })) :=
  update_delete_ownership sampleQuestionState (some "alice") sampleUpdateInput
    { id := "alice", content := "old", questionType := .CODING, userId := some "bob" }
    (by rfl)

/-- C4 counterexample: on the empty store, one `create` call grows the
encounter table by two rows, not by the single row the claim describes. -/
theorem create_single_encounter_cex :
    ¬((create emptyState (some "u1") sampleCreateInput "q1" "e1" "e2").1.encounters.length =
        emptyState.encounters.length + 1) ∧
    (create emptyState (some "u1") sampleCreateInput "q1" "e1" "e2").1.encounters.length = 2 := by
  decide

/-- C4 (amended): `create` is the separate encounter write applied after the
question write; it appends exactly one question row owned by the caller and
two matching encounter rows — one nested inside the question write, one from
the second write — and touches nothing else. -/
theorem create_writes (s : State) (uid : Option String) (input : CreateInput)
    (qid eid1 eid2 : String) :
    create s uid input qid eid1 eid2 =
      (encounterCreateWrite (questionCreateWrite s uid input qid eid1).1 uid input
        (questionCreateWrite s uid input qid eid1).2.id eid2,
        (questionCreateWrite s uid input qid eid1).2) ∧
    (create s uid input qid eid1 eid2).2 =
      { id := qid, content := input.content, questionType := input.questionType,
        userId := uid } ∧
    (create s uid input qid eid1 eid2).1.questions =
      s.questions ++
        [{ id := qid, content := input.content, questionType := input.questionType,
           userId := uid }] ∧
    (create s uid input qid eid1 eid2).1.encounters =
      s.encounters ++
        [{ id := eid1, company := input.company, location := some input.location,
           role := some input.role, seenAt := input.seenAt, userId := uid,
           questionId := qid },
         { id := eid2, company := input.company, location := some input.location,
           role := some input.role, seenAt := input.seenAt, userId := uid,
           questionId := qid }] ∧
    (create s uid input qid eid1 eid2).1.votes = s.votes := by
  refine ⟨rfl, rfl, rfl, ?_, rfl⟩
  simp [create, questionCreateWrite, encounterCreateWrite]

/-- C5: `updateVote`/`deleteVote` throw `UNAUTHORIZED` (mutating nothing)
exactly when the caller's id differs from the target vote's `userId`;
otherwise `updateVote` rewrites only the `vote` field and `deleteVote`
removes the row. -/
theorem vote_ownership (s : State) (uid : Option String) (id : String)
    (newVote : Vote) (v : VoteRow)
    (h : s.votes.find? (fun w => w.id == id) = some v) :
    (uid ≠ some v.userId →
      updateVote s uid id newVote = .error (.trpc .UNAUTHORIZED) ∧
      deleteVote s uid id = .error (.trpc .UNAUTHORIZED)) ∧
    (uid = some v.userId →
      updateVote s uid id newVote =
        .ok
          ({ s with
              votes := s.votes.map fun w =>
                if w.id == id then { v with vote := newVote } else w },
            { v with vote := newVote }) ∧
      deleteVote s uid id =
        .ok ({ s with votes := s.votes.filter fun w => !(w.id == id) }, v)) := by
  rcases eq_or_ne uid (some v.userId) with huid | huid
  · simp [updateVote, deleteVote, h, huid]
  · simp [updateVote, deleteVote, h, huid, Ne.symm huid]

/-- Witness for C5 on a one-vote store: a non-owner caller is rejected. -/
theorem vote_ownership_witness :
    ((some "mallory" : Option String) ≠ some "carol" →
      updateVote sampleVoteState (some "mallory") "w1" .UPVOTE =
        .error (.trpc .UNAUTHORIZED) ∧
      deleteVote sampleVoteState (some "mallory") "w1" = .error (.trpc .UNAUTHORIZED)) ∧
    ((some "mallory" : Option String) = some "carol" →
      updateVote sampleVoteState (some "mallory") "w1" .UPVOTE =
        .ok
          ({ sampleVoteState with
              votes := sampleVoteState.votes.map fun w =>
                if w.id == "w1" then
                  { ({ id := "w1", questionId := "q1", userId := "carol",
                       vote := .DOWNVOTE } : VoteRow) with vote := .UPVOTE }
                else w },
            { ({ id := "w1", questionId := "q1", userId := "carol",
                 vote := .DOWNVOTE } : VoteRow) with vote := .UPVOTE }) ∧
      deleteVote sampleVoteState (some "mallory") "w1" =
        .ok
          ({ sampleVoteState with
              votes := sampleVoteState.votes.filter fun w => !(w.id == "w1") },
            { id := "w1", questionId := "q1", userId := "carol", vote := .DOWNVOTE })) :=
  vote_ownership sampleVoteState (some "mallory") "w1" .UPVOTE
    { id := "w1", questionId := "q1", userId := "carol", vote := .DOWNVOTE } (by rfl)

/-- C8: after a successful `createVote`, the store holds exactly one vote row
for the (questionId, userId) pair, and a second `createVote` for the same pair
is rejected by the store's composite-uniqueness constraint. -/
theorem createVote_no_duplicate (s : State) (uid : Option String) (qid : String)
    (v1 v2 : Vote) (id1 id2 : String) (s1 : State) (r1 : VoteRow)
    (h : createVote s uid qid v1 id1 = .ok (s1, r1)) :
    (s1.votes.countP fun w => w.questionId == qid && w.userId == r1.userId) = 1 ∧
    createVote s1 uid qid v2 id2 = .error .prismaUniqueViolation := by
  cases uid with
  | none => simp [createVote, prismaVoteCreate] at h
  | some u =>
    by_cases hany : s.votes.any (fun w => w.questionId == qid && w.userId == u) = true
    · simp [createVote, prismaVoteCreate, hany] at h
    · rw [Bool.not_eq_true] at hany
      have hzero : (s.votes.countP fun w => w.questionId == qid && w.userId == u) = 0 := by
        rw [List.countP_eq_zero]
        intro w hw
        exact fun hcontra => (List.any_eq_false.mp hany w hw) hcontra
      simp [createVote, prismaVoteCreate, hany] at h
      obtain ⟨hs1, hr1⟩ := h
      subst hs1
      subst hr1
      constructor
      · simp [List.countP_append, List.countP_cons, hzero]
      · simp [createVote, prismaVoteCreate, List.any_append, hany]

/-- Witness for C8: voting twice on the same question as the same user — the
second insertion violates the uniqueness constraint. -/
theorem createVote_no_duplicate_witness :
    (({ questions := [], encounters := [],
        votes := [{ id := "x1", questionId := "qz", userId := "dave",
                    vote := .UPVOTE }] } : State).votes.countP fun w =>
          w.questionId == "qz" && w.userId == "dave") = 1 ∧
    createVote
        { questions := [], encounters := [],
          votes := [{ id := "x1", questionId := "qz", userId := "dave",
                      vote := .UPVOTE }] }
        (some "dave") "qz" .DOWNVOTE "x2" = .error .prismaUniqueViolation :=
  createVote_no_duplicate emptyState (some "dave") "qz" .UPVOTE .DOWNVOTE "x1" "x2"
    { questions := [], encounters := [],
      votes := [{ id := "x1", questionId := "qz", userId := "dave", vote := .UPVOTE }] }
    { id := "x1", questionId := "qz", userId := "dave", vote := .UPVOTE } (by rfl)

/-- C9: when the targeted row does not exist, none of the four guarded
mutations throws `NOT_FOUND`: a defined caller is rejected with
`UNAUTHORIZED` (the lookup returned `undefined`), while for question
update/delete an undefined caller passes the `undefined !== undefined`
comparison and the mutation is attempted against the missing row (rejected
by the store, not by the resolver). -/
theorem missing_row_auth (s : State) (uid : Option String)
    (inp : UpdateInput) (vid : String) (newVote : Vote)
    (hq : s.questions.find? (fun r => r.id == inp.id) = none)
    (hv : s.votes.find? (fun w => w.id == vid) = none) :
    (update s uid inp ≠ .error (.trpc .NOT_FOUND) ∧
     deleteQuestion s uid inp.id ≠ .error (.trpc .NOT_FOUND) ∧
     updateVote s uid vid newVote ≠ .error (.trpc .NOT_FOUND) ∧
     deleteVote s uid vid ≠ .error (.trpc .NOT_FOUND)) ∧
    (∀ u, uid = some u →
      update s uid inp = .error (.trpc .UNAUTHORIZED) ∧
      deleteQuestion s uid inp.id = .error (.trpc .UNAUTHORIZED) ∧
      updateVote s uid vid newVote = .error (.trpc .UNAUTHORIZED) ∧
      deleteVote s uid vid = .error (.trpc .UNAUTHORIZED)) ∧
    (uid = none →
      update s uid inp = .error .prismaRecordNotFound ∧
      deleteQuestion s uid inp.id = .error .prismaRecordNotFound) := by
  cases uid with
  | none => simp [update, deleteQuestion, updateVote, deleteVote, hq, hv]
  | some u => simp [update, deleteQuestion, updateVote, deleteVote, hq, hv]

/-- Witness for C9: an unauthenticated caller updating a non-existent
question reaches the store and is rejected there, not with `NOT_FOUND`. -/
theorem missing_row_auth_witness :
    (update emptyState none missingUpdateInput ≠ .error (.trpc .NOT_FOUND) ∧
     deleteQuestion emptyState none missingUpdateInput.id ≠ .error (.trpc .NOT_FOUND) ∧
     updateVote emptyState none "ghostVote" .UPVOTE ≠ .error (.trpc .NOT_FOUND) ∧
     deleteVote emptyState none "ghostVote" ≠ .error (.trpc .NOT_FOUND)) ∧
    (∀ u, (none : Option String) = some u →
      update emptyState none missingUpdateInput = .error (.trpc .UNAUTHORIZED) ∧
      deleteQuestion emptyState none missingUpdateInput.id = .error (.trpc .UNAUTHORIZED) ∧
      updateVote emptyState none "ghostVote" .UPVOTE = .error (.trpc .UNAUTHORIZED) ∧
      deleteVote emptyState none "ghostVote" = .error (.trpc .UNAUTHORIZED)) ∧
    ((none : Option String) = none →
      update emptyState none missingUpdateInput = .error .prismaRecordNotFound ∧
      deleteQuestion emptyState none missingUpdateInput.id = .error .prismaRecordNotFound) :=
  missing_row_auth emptyState none missingUpdateInput "ghostVote" .UPVOTE (by rfl) (by rfl)

end QuestionsRouter
